import Mathlib

/-!
Verification development for the HIV ligand-based virtual-screening notebook
workflow: a Dataset Loader (`hiv = pd.read_csv` on the path data/molecules_HIV.csv), a
Summary Reporter (`len(hiv[hiv["Label"] == 1])`) and a Distribution Visualizer
(`sns.countplot` on the Label column, with its axis labels).
-/

namespace MLScreening

/-- A row of a delimited tabular file: the ordered list of its fields. -/
abbrev Row := List String

/-- In-memory table produced by the Dataset Loader: the ordered column names
from the header row and the records in file row order. -/
structure Table where
  columns : List String
  records : List Row
deriving DecidableEq

/-- The two error kinds of the Dataset Loader: missing file and malformed
schema. -/
inductive LoadError where
  | notFound
  | parse
deriving DecidableEq

/-- Modelled from the spec: the Dataset Loader contract (the parsing itself is
performed by the external library call `pd.read_csv`, whose code is not part of
this repository). Given a filesystem view mapping paths to file contents (a
list of rows, the first being the header), the required column names and a
path, it produces the in-memory table preserving row order and column names,
fails with the missing-file error when the path has no file, and with the
malformed-schema error when the header row is missing or lacks a required
column. -/
def read_csv (fs : String → Option (List Row)) (required : List String)
    (path : String) : Except LoadError Table :=
  match fs path with
  | none => .error .notFound
  | some [] => .error .parse
  | some (header :: rows) =>
      if required.all (fun c => header.contains c) then
        .ok { columns := header, records := rows }
      else
        .error .parse

/-- Position of a column in the header, as pandas column lookup. -/
def colIdx (t : Table) (col : String) : Nat :=
  t.columns.findIdx (fun c => c == col)

/-- The value a row holds in a given column of the table, when present. -/
def cellAt (t : Table) (col : String) (r : Row) : Option String :=
  r.get? (colIdx t col)

/-- The Summary Reporter count query, embedding
`len(hiv[hiv["Label"] == value])`: build the boolean mask comparing the column
against the value, keep the masked rows, take the length. `none` models the
key error pandas raises when the column is absent from the table. -/
def countMatching (t : Table) (col v : String) : Option Nat :=
  if col ∈ t.columns then
    some ((t.records.filter (fun r => decide (cellAt t col r = some v))).length)
  else
    none

/-- First-appearance deduplication of category values, with an accumulator of
the values already seen. -/
def uniqueAux (seen : List String) : List String → List String
  | [] => []
  | x :: xs => if x ∈ seen then uniqueAux seen xs else x :: uniqueAux (x :: seen) xs

/-- The values present in a column of the table, in row order, skipping rows
too short to reach the column. -/
def columnValues (t : Table) (col : String) : List String :=
  t.records.filterMap (cellAt t col)

/-- A rendered count plot: one bar per category value with its height, and the
two axis labels set by the plotting cell. -/
structure CountPlot where
  bars : List (String × Nat)
  ylabel : String
  xlabel : String
deriving DecidableEq

/-- Modelled from the spec: the Distribution Visualizer, embedding the cell
`sns.countplot(data = hiv, x = col)` followed by
`plt.ylabel` setting Num of molecules and
`plt.xlabel` setting Class 0: inactives and Class 1: Actives (the rendering itself
is performed by the external seaborn library, whose code is not part of this
repository): one bar per distinct value of the column, of height the number of
rows holding that value, with the two axis labels of the cell. Errors with the
column name when the column is not in the table, as seaborn does when it
cannot interpret the value given for `x`. -/
def countplot (t : Table) (col : String) : Except String CountPlot :=
  if col ∈ t.columns then
    let vals := columnValues t col
    .ok { bars := (uniqueAux [] vals).map (fun v => (v, vals.count v))
          ylabel := "Num of molecules"
          xlabel := "Class 0: inactives and Class 1: Actives" }
  else
    .error col

/-- The notebook session after loading: the single binding `hiv` holding the
loaded table. -/
structure Session where
  table : Table
deriving DecidableEq

/-- The Summary Reporter as a session operation: the count together with the
session it leaves behind. -/
def reportCount (s : Session) (col v : String) : Option Nat × Session :=
  (countMatching s.table col v, s)

/-- The Distribution Visualizer as a session operation: the rendered plot
together with the session it leaves behind. -/
def visualize (s : Session) (col : String) : Except String CountPlot × Session :=
  (countplot s.table col, s)

/-- The header row of `data/molecules_HIV.csv`, as displayed by `hiv.head()`
in both notebooks. -/
def hivHeader : Row := ["Smiles", "Experimental activity", "Label"]

/-- The first five data rows of `data/molecules_HIV.csv`, as displayed by
`hiv.head()` (the first two SMILES strings appear truncated in the notebook
output and the truncated forms stand in for the full opaque tokens). -/
def hivHeadRows : List Row :=
  [ ["CCC1=[O+][Cu-3]2([O+]=C(CC)C1)[O+]=C(CC)CC(CC)...", "CI", "0"]
  , ["C(=Cc1ccccc1)C1=[O+][Cu-3]2([O+]=C(C=Cc3ccccc3...", "CI", "0"]
  , ["CC(=O)N1c2ccccc2Sc2c1ccc1ccccc21", "CI", "0"]
  , ["Nc1ccc(C=Cc2ccc(N)cc2S(=O)(=O)O)c(S(=O)(=O)O)c1", "CI", "0"]
  , ["O=S(=O)(O)CCS(=O)(=O)O", "CI", "0"] ]

/-- A filesystem view holding the dataset file at the path the notebooks load,
restricted to the rows their output displays. -/
def hivFs : String → Option (List Row) :=
  fun p => if p = "data/molecules_HIV.csv" then some (hivHeader :: hivHeadRows) else none

/-- A table with the composition named by the spec for the count query check:
five rows of which exactly two carry label 1 (the smiles fields are opaque
tokens). -/
def exampleTable5 : Table :=
  { columns := ["Smiles", "Experimental activity", "Label"]
    records := [ ["m1", "CI", "0"], ["m2", "CA", "1"], ["m3", "CI", "0"]
               , ["m4", "CM", "1"], ["m5", "CI", "0"] ] }

/-- A table with the header of the dataset but no data rows. -/
def emptyTable : Table :=
  { columns := ["Smiles", "Experimental activity", "Label"], records := [] }

example : countMatching exampleTable5 "Label" "1" = some 2 := by decide

example : countMatching emptyTable "Label" "1" = some 0 := by decide

example : hivFs "data/molecules_HIV.csv" = some (hivHeader :: hivHeadRows) := by decide

example :
    read_csv hivFs ["Smiles", "Label"] "data/molecules_HIV.csv" =
      .ok { columns := hivHeader, records := hivHeadRows } := rfl

example : countplot exampleTable5 "Label" =
    .ok { bars := [("0", 3), ("1", 2)]
          ylabel := "Num of molecules"
          xlabel := "Class 0: inactives and Class 1: Actives" } := rfl

example : countplot exampleTable5 "HIV_active" = .error "HIV_active" := rfl

example : (columnValues exampleTable5 "Label").toFinset.card = 2 := by decide

/-- The length of a filtered list is the number of positions whose element
satisfies the predicate. -/
theorem length_filter_eq_card_filter_univ {α : Type} (p : α → Prop) [DecidablePred p]
    (l : List α) :
    (l.filter (fun a => decide (p a))).length =
      (Finset.filter (fun i => p (l.get i)) Finset.univ).card := by
  induction l with
  | nil => simp
  | cons a l ih =>
      rw [List.filter_cons]
      have key : (Finset.filter (fun i => p ((a :: l).get i)) Finset.univ).card
          = (if p a then 1 else 0) + (Finset.filter (fun i => p (l.get i)) Finset.univ).card := by
        show (Finset.filter (fun i : Fin (l.length + 1) => p ((a :: l).get i)) Finset.univ).card
          = (if p a then 1 else 0) + (Finset.filter (fun i => p (l.get i)) Finset.univ).card
        rw [Finset.card_filter, Finset.card_filter, Fin.sum_univ_succ]
        simp
      rw [key, ← ih]
      by_cases hpa : p a <;> simp [hpa, Nat.add_comm]

/-- Two pointwise-exclusive masks split the length of a list between their two
filters. -/
theorem length_filter_add_length_filter {α : Type} (p q : α → Bool) (l : List α)
    (h : ∀ x ∈ l, p x ≠ q x) :
    (l.filter p).length + (l.filter q).length = l.length := by
  induction l with
  | nil => simp
  | cons a l ih =>
      have ha := h a (List.mem_cons_self a l)
      have hrest : ∀ x ∈ l, p x ≠ q x := fun x hx => h x (List.mem_cons_of_mem _ hx)
      have ih' := ih hrest
      rw [List.filter_cons, List.filter_cons]
      cases hpa : p a <;> cases hqa : q a <;> simp_all <;> omega

/-- Membership of the first-appearance deduplication: the elements of the list
not already seen. -/
theorem mem_uniqueAux (x : String) (l : List String) : ∀ seen,
    x ∈ uniqueAux seen l ↔ x ∈ l ∧ x ∉ seen := by
  induction l with
  | nil => intro seen; simp [uniqueAux]
  | cons a l ih =>
      intro seen
      rw [uniqueAux]
      by_cases ha : a ∈ seen
      · rw [if_pos ha, ih]
        constructor
        · rintro ⟨hx, hs⟩
          exact ⟨List.mem_cons_of_mem _ hx, hs⟩
        · rintro ⟨hx, hs⟩
          rcases List.mem_cons.mp hx with rfl | hx
          · exact absurd ha hs
          · exact ⟨hx, hs⟩
      · rw [if_neg ha, List.mem_cons, ih]
        constructor
        · rintro (rfl | ⟨hx, hs⟩)
          · exact ⟨List.mem_cons_self _ _, ha⟩
          · refine ⟨List.mem_cons_of_mem _ hx, fun hxx => hs (List.mem_cons_of_mem _ hxx)⟩
        · rintro ⟨hx, hs⟩
          by_cases hxa : x = a
          · exact Or.inl hxa
          · rcases List.mem_cons.mp hx with rfl | hx
            · exact absurd rfl hxa
            · refine Or.inr ⟨hx, fun hmem => ?_⟩
              rcases List.mem_cons.mp hmem with h1 | h2
              · exact hxa h1
              · exact hs h2

/-- The first-appearance deduplication has no duplicates. -/
theorem nodup_uniqueAux (l : List String) : ∀ seen, (uniqueAux seen l).Nodup := by
  induction l with
  | nil => intro seen; simp [uniqueAux]
  | cons a l ih =>
      intro seen
      rw [uniqueAux]
      by_cases ha : a ∈ seen
      · rw [if_pos ha]; exact ih seen
      · rw [if_neg ha]
        refine List.nodup_cons.mpr ⟨fun hmem => ?_, ih (a :: seen)⟩
        exact ((mem_uniqueAux a l (a :: seen)).mp hmem).2 (List.mem_cons_self a seen)

/-- The first-appearance deduplication keeps exactly the values of the list. -/
theorem toFinset_uniqueAux (l : List String) :
    (uniqueAux [] l).toFinset = l.toFinset := by
  ext x
  simp [List.mem_toFinset, mem_uniqueAux]

/-- The length of the first-appearance deduplication is the number of distinct
values of the list. -/
theorem length_uniqueAux (l : List String) :
    (uniqueAux [] l).length = l.toFinset.card := by
  rw [← toFinset_uniqueAux, List.toFinset_card_of_nodup (nodup_uniqueAux l [])]

/-- A filesystem view with a file whose header lacks the `Label` column. -/
def noLabelFs : String → Option (List Row) :=
  fun p => if p = "data/no_label.csv" then
    some [["Smiles", "Experimental activity"], ["CCO", "CI"]] else none

/-- C1: for every well-formed delimited input file with a header row and N
data rows, the Dataset Loader produces a table with exactly N records, whose
column names are the header fields and whose record order equals the file row
order. -/
theorem dataset_loader_preserves_rows (fs : String → Option (List Row))
    (required : List String) (path : String) (header : Row) (rows : List Row)
    (hfile : fs path = some (header :: rows))
    (hcols : required.all (fun c => header.contains c) = true) :
    ∃ t, read_csv fs required path = .ok t ∧
      t.records.length = rows.length ∧
      t.columns = header ∧
      ∀ i, t.records.get? i = rows.get? i := by
  refine ⟨⟨header, rows⟩, ?_, rfl, rfl, fun i => rfl⟩
  simp only [read_csv, hfile]
  rw [if_pos hcols]

/-- C1 witness: loading the dataset file of the notebooks yields its five
displayed records under their header, in file order. -/
theorem dataset_loader_preserves_rows_witness :
    (hivFs "data/molecules_HIV.csv" = some (hivHeader :: hivHeadRows) ∧
      (["Smiles", "Experimental activity", "Label"].all
        (fun c => hivHeader.contains c)) = true) ∧
    ∃ t, read_csv hivFs ["Smiles", "Experimental activity", "Label"]
        "data/molecules_HIV.csv" = .ok t ∧
      t.records.length = hivHeadRows.length ∧
      t.columns = hivHeader ∧
      ∀ i, t.records.get? i = hivHeadRows.get? i :=
  ⟨⟨by decide, by decide⟩,
    dataset_loader_preserves_rows hivFs ["Smiles", "Experimental activity", "Label"]
      "data/molecules_HIV.csv" hivHeader hivHeadRows (by decide) (by decide)⟩

/-- C2: the Summary Reporter returns exactly the number of rows whose value in
the target column equals the match value, it leaves the table unchanged, and
on a table of 5 rows of which 2 have label 1 the count query for label 1
returns 2. -/
theorem summary_reporter_exact_count (t : Table) (col v : String)
    (h : col ∈ t.columns) :
    countMatching t col v =
      some ((Finset.filter (fun i => cellAt t col (t.records.get i) = some v)
        Finset.univ).card) ∧
    (reportCount ⟨t⟩ col v).2 = ⟨t⟩ ∧
    countMatching exampleTable5 "Label" "1" = some 2 := by
  refine ⟨?_, rfl, by decide⟩
  rw [countMatching, if_pos h,
    length_filter_eq_card_filter_univ (fun r => cellAt t col r = some v) t.records]

/-- C2 witness: the count query on the five-row table with two rows labeled
1. -/
theorem summary_reporter_exact_count_witness :
    "Label" ∈ exampleTable5.columns ∧
    (countMatching exampleTable5 "Label" "1" =
        some ((Finset.filter
          (fun i => cellAt exampleTable5 "Label" (exampleTable5.records.get i) = some "1")
          Finset.univ).card) ∧
      (reportCount ⟨exampleTable5⟩ "Label" "1").2 = ⟨exampleTable5⟩ ∧
      countMatching exampleTable5 "Label" "1" = some 2) :=
  ⟨by decide, summary_reporter_exact_count exampleTable5 "Label" "1" (by decide)⟩

/-- C3: on a file whose header row is missing or lacks a required label
column, the Dataset Loader fails with the malformed-schema (parse) error and
produces no table. -/
theorem dataset_loader_malformed_schema (fs : String → Option (List Row))
    (required : List String) (path : String) (content : List Row)
    (hfile : fs path = some content)
    (hbad : content = [] ∨ ∃ header rows, content = header :: rows ∧
      required.all (fun c => header.contains c) = false) :
    read_csv fs required path = .error .parse ∧
      ∀ t, read_csv fs required path ≠ .ok t := by
  have hmain : read_csv fs required path = .error .parse := by
    rcases hbad with rfl | ⟨header, rows, rfl, hmiss⟩
    · simp [read_csv, hfile]
    · have hmiss' : ¬ (required.all (fun c => header.contains c) = true) := by
        intro h
        rw [h] at hmiss
        exact Bool.noConfusion hmiss
      simp only [read_csv, hfile]
      rw [if_neg hmiss']
  exact ⟨hmain, fun t h => by rw [hmain] at h; exact Except.noConfusion h⟩

/-- C3 witness: loading a file whose header lacks the `Label` column fails
with the malformed-schema error. -/
theorem dataset_loader_malformed_schema_witness :
    noLabelFs "data/no_label.csv" =
      some [["Smiles", "Experimental activity"], ["CCO", "CI"]] ∧
    (read_csv noLabelFs ["Smiles", "Experimental activity", "Label"]
        "data/no_label.csv" = .error .parse ∧
      ∀ t, read_csv noLabelFs ["Smiles", "Experimental activity", "Label"]
        "data/no_label.csv" ≠ .ok t) :=
  ⟨by decide,
    dataset_loader_malformed_schema noLabelFs ["Smiles", "Experimental activity", "Label"]
      "data/no_label.csv" [["Smiles", "Experimental activity"], ["CCO", "CI"]] (by decide)
      (Or.inr ⟨["Smiles", "Experimental activity"], [["CCO", "CI"]], rfl, by decide⟩)⟩

/-- C4: on a path that refers to no file, the Dataset Loader fails with the
missing-file error and produces no table. -/
theorem dataset_loader_missing_file (fs : String → Option (List Row))
    (required : List String) (path : String) (hfile : fs path = none) :
    read_csv fs required path = .error .notFound ∧
      ∀ t, read_csv fs required path ≠ .ok t := by
  have hmain : read_csv fs required path = .error .notFound := by
    simp [read_csv, hfile]
  exact ⟨hmain, fun t h => by rw [hmain] at h; exact Except.noConfusion h⟩

/-- C4 witness: loading a path that the filesystem of the notebooks does not
hold fails with the missing-file error. -/
theorem dataset_loader_missing_file_witness :
    hivFs "data/missing.csv" = none ∧
    (read_csv hivFs ["Smiles", "Label"] "data/missing.csv" = .error .notFound ∧
      ∀ t, read_csv hivFs ["Smiles", "Label"] "data/missing.csv" ≠ .ok t) :=
  ⟨by decide, dataset_loader_missing_file hivFs ["Smiles", "Label"]
    "data/missing.csv" (by decide)⟩

/-- The bars the Distribution Visualizer renders on a present column: the
distinct values of the column in first-appearance order, each with its row
count, under the two axis labels of the plotting cell. -/
theorem countplot_bars (t : Table) (col : String) (hc : col ∈ t.columns) :
    ∃ p, countplot t col = .ok p ∧
      p.bars = (uniqueAux [] (columnValues t col)).map
        (fun v => (v, (columnValues t col).count v)) ∧
      p.ylabel = "Num of molecules" ∧
      p.xlabel = "Class 0: inactives and Class 1: Actives" := by
  refine ⟨CountPlot.mk ((uniqueAux [] (columnValues t col)).map
      (fun v => (v, (columnValues t col).count v)))
      "Num of molecules" "Class 0: inactives and Class 1: Actives", ?_, rfl, rfl, rfl⟩
  rw [countplot, if_pos hc]

/-- C5: on a categorical column of the table taking exactly two distinct
values, the Distribution Visualizer renders exactly two bars, one per distinct
value, the height of each bar the number of rows holding that value, with y-axis
label "Num of molecules" and the x-axis label describing the two classes. -/
theorem visualizer_two_categories (t : Table) (col : String)
    (hc : col ∈ t.columns)
    (h2 : (columnValues t col).toFinset.card = 2) :
    ∃ p, countplot t col = .ok p ∧
      p.bars.length = 2 ∧
      (p.bars.map Prod.fst).toFinset = (columnValues t col).toFinset ∧
      (p.bars.map Prod.fst).Nodup ∧
      (∀ b ∈ p.bars, b.2 = (columnValues t col).count b.1) ∧
      p.ylabel = "Num of molecules" ∧
      p.xlabel = "Class 0: inactives and Class 1: Actives" := by
  obtain ⟨p, hok, hbars, hy, hx⟩ := countplot_bars t col hc
  have hfst : p.bars.map Prod.fst = uniqueAux [] (columnValues t col) := by
    rw [hbars, List.map_map]
    exact List.map_id _
  refine ⟨p, hok, ?_, ?_, ?_, ?_, hy, hx⟩
  · rw [hbars, List.length_map, length_uniqueAux, h2]
  · rw [hfst, toFinset_uniqueAux]
  · rw [hfst]
    exact nodup_uniqueAux _ _
  · intro b hb
    rw [hbars] at hb
    obtain ⟨v, hv, rfl⟩ := List.mem_map.mp hb
    rfl

/-- C5 witness: the label column of the five-row table takes the two values 0
and 1, and the visualizer renders its two bars. -/
theorem visualizer_two_categories_witness :
    ("Label" ∈ exampleTable5.columns ∧
      (columnValues exampleTable5 "Label").toFinset.card = 2) ∧
    ∃ p, countplot exampleTable5 "Label" = .ok p ∧
      p.bars.length = 2 ∧
      (p.bars.map Prod.fst).toFinset = (columnValues exampleTable5 "Label").toFinset ∧
      (p.bars.map Prod.fst).Nodup ∧
      (∀ b ∈ p.bars, b.2 = (columnValues exampleTable5 "Label").count b.1) ∧
      p.ylabel = "Num of molecules" ∧
      p.xlabel = "Class 0: inactives and Class 1: Actives" :=
  ⟨⟨by decide, by decide⟩,
    visualizer_two_categories exampleTable5 "Label" (by decide) (by decide)⟩

/-- C6: when every data row of the input file carries label 0 or 1 in the
label column, as the input format prescribes, every record of the loaded
table does too, and the invariant still holds after a Summary Reporter query
and after a Distribution Visualizer rendering, both of which leave the table
unchanged. -/
theorem label_binary_invariant (fs : String → Option (List Row))
    (required : List String) (path : String) (header : Row) (rows : List Row)
    (hfile : fs path = some (header :: rows))
    (hcols : required.all (fun c => header.contains c) = true)
    (hwf : ∀ r ∈ rows,
      r.get? (header.findIdx (fun c => c == "Label")) = some "0" ∨
      r.get? (header.findIdx (fun c => c == "Label")) = some "1") :
    ∃ t, read_csv fs required path = .ok t ∧
      (∀ r ∈ t.records,
        cellAt t "Label" r = some "0" ∨ cellAt t "Label" r = some "1") ∧
      (∀ col v r, r ∈ ((reportCount ⟨t⟩ col v).2).table.records →
        cellAt ((reportCount ⟨t⟩ col v).2).table "Label" r = some "0" ∨
        cellAt ((reportCount ⟨t⟩ col v).2).table "Label" r = some "1") ∧
      (∀ col r, r ∈ ((visualize ⟨t⟩ col).2).table.records →
        cellAt ((visualize ⟨t⟩ col).2).table "Label" r = some "0" ∨
        cellAt ((visualize ⟨t⟩ col).2).table "Label" r = some "1") := by
  refine ⟨⟨header, rows⟩, ?_, hwf, fun col v r hr => hwf r hr, fun col r hr => hwf r hr⟩
  simp only [read_csv, hfile]
  rw [if_pos hcols]

/-- C6 witness: the dataset file of the notebooks carries label 0 on each of
its displayed rows, and the invariant holds through both operations. -/
theorem label_binary_invariant_witness :
    (hivFs "data/molecules_HIV.csv" = some (hivHeader :: hivHeadRows) ∧
      (["Smiles", "Experimental activity", "Label"].all
        (fun c => hivHeader.contains c)) = true ∧
      ∀ r ∈ hivHeadRows,
        r.get? (hivHeader.findIdx (fun c => c == "Label")) = some "0" ∨
        r.get? (hivHeader.findIdx (fun c => c == "Label")) = some "1") ∧
    ∃ t, read_csv hivFs ["Smiles", "Experimental activity", "Label"]
        "data/molecules_HIV.csv" = .ok t ∧
      (∀ r ∈ t.records,
        cellAt t "Label" r = some "0" ∨ cellAt t "Label" r = some "1") ∧
      (∀ col v r, r ∈ ((reportCount ⟨t⟩ col v).2).table.records →
        cellAt ((reportCount ⟨t⟩ col v).2).table "Label" r = some "0" ∨
        cellAt ((reportCount ⟨t⟩ col v).2).table "Label" r = some "1") ∧
      (∀ col r, r ∈ ((visualize ⟨t⟩ col).2).table.records →
        cellAt ((visualize ⟨t⟩ col).2).table "Label" r = some "0" ∨
        cellAt ((visualize ⟨t⟩ col).2).table "Label" r = some "1") :=
  ⟨⟨by decide, by decide, by decide⟩,
    label_binary_invariant hivFs ["Smiles", "Experimental activity", "Label"]
      "data/molecules_HIV.csv" hivHeader hivHeadRows (by decide) (by decide) (by decide)⟩

/-- C7: in the alternate notebook variant the columns of the loaded table are
Smiles, Experimental activity and Label, as its own displayed head output
shows, so the binary label column is not named HIV_active, and the
Distribution Visualizer invoked with column name HIV_active on that table
fails instead of producing the count plot. -/
theorem alt_variant_hiv_active_fails (t : Table)
    (hcols : t.columns = ["Smiles", "Experimental activity", "Label"]) :
    countplot t "HIV_active" = .error "HIV_active" ∧
      ∀ p, countplot t "HIV_active" ≠ .ok p := by
  have hnot : "HIV_active" ∉ t.columns := by
    rw [hcols]
    decide
  have hmain : countplot t "HIV_active" = .error "HIV_active" := by
    rw [countplot, if_neg hnot]
  exact ⟨hmain, fun p h => by rw [hmain] at h; exact Except.noConfusion h⟩

/-- C7 witness: on the table the alternate notebook displays, the visualizer
call with HIV_active fails. -/
theorem alt_variant_hiv_active_fails_witness :
    (Table.mk hivHeader hivHeadRows).columns =
      ["Smiles", "Experimental activity", "Label"] ∧
    (countplot (Table.mk hivHeader hivHeadRows) "HIV_active" = .error "HIV_active" ∧
      ∀ p, countplot (Table.mk hivHeader hivHeadRows) "HIV_active" ≠ .ok p) :=
  ⟨by decide, alt_variant_hiv_active_fails (Table.mk hivHeader hivHeadRows) (by decide)⟩

/-- C8: once loaded the table is never modified: after a Summary Reporter
query and after a Distribution Visualizer rendering, the table of the session has
the same records, in the same order, and the same column names as before, and
indeed the whole session is unchanged. -/
theorem table_never_modified (s : Session) (col v : String) :
    ((reportCount s col v).2.table.records = s.table.records ∧
      (reportCount s col v).2.table.columns = s.table.columns ∧
      (reportCount s col v).2 = s) ∧
    ((visualize s col).2.table.records = s.table.records ∧
      (visualize s col).2.table.columns = s.table.columns ∧
      (visualize s col).2 = s) :=
  ⟨⟨rfl, rfl, rfl⟩, ⟨rfl, rfl, rfl⟩⟩

/-- C9: on a table whose label column holds only the values 0 and 1, the
count for value 1 plus the count for value 0 equals the number of rows, and
each of the two counts is at most the number of rows. -/
theorem counts_partition (t : Table) (col : String)
    (hc : col ∈ t.columns)
    (hv : ∀ r ∈ t.records,
      cellAt t col r = some "0" ∨ cellAt t col r = some "1") :
    ∃ n0 n1, countMatching t col "0" = some n0 ∧ countMatching t col "1" = some n1 ∧
      n0 + n1 = t.records.length ∧
      n0 ≤ t.records.length ∧ n1 ≤ t.records.length := by
  have h0 : countMatching t col "0" =
      some ((t.records.filter (fun r => decide (cellAt t col r = some "0"))).length) := by
    rw [countMatching, if_pos hc]
  have h1 : countMatching t col "1" =
      some ((t.records.filter (fun r => decide (cellAt t col r = some "1"))).length) := by
    rw [countMatching, if_pos hc]
  refine ⟨_, _, h0, h1, ?_, List.length_filter_le _ _, List.length_filter_le _ _⟩
  apply length_filter_add_length_filter
  intro r hr
  rcases hv r hr with h | h <;> simp [h]

/-- C9 witness: on the five-row table the counts for labels 0 and 1 are 3 and
2, which sum to its 5 rows. -/
theorem counts_partition_witness :
    ("Label" ∈ exampleTable5.columns ∧
      ∀ r ∈ exampleTable5.records,
        cellAt exampleTable5 "Label" r = some "0" ∨
        cellAt exampleTable5 "Label" r = some "1") ∧
    ∃ n0 n1, countMatching exampleTable5 "Label" "0" = some n0 ∧
      countMatching exampleTable5 "Label" "1" = some n1 ∧
      n0 + n1 = exampleTable5.records.length ∧
      n0 ≤ exampleTable5.records.length ∧ n1 ≤ exampleTable5.records.length :=
  ⟨⟨by decide, by decide⟩, counts_partition exampleTable5 "Label" (by decide) (by decide)⟩

/-- C10: on a table with no data rows whose header still contains the target
column, the count query returns 0, not an error, whatever the match value. -/
theorem empty_table_count_zero (t : Table) (col : String)
    (hc : col ∈ t.columns) (hempty : t.records = []) :
    ∀ v, countMatching t col v = some 0 := by
  intro v
  rw [countMatching, if_pos hc, hempty]
  rfl

/-- C10 witness: the empty table with the dataset header answers 0 to the
count query for label 1. -/
theorem empty_table_count_zero_witness :
    ("Label" ∈ emptyTable.columns ∧ emptyTable.records = []) ∧
    countMatching emptyTable "Label" "1" = some 0 :=
  ⟨⟨by decide, by decide⟩,
    empty_table_count_zero emptyTable "Label" (by decide) (by decide) "1"⟩

end MLScreening
